import Mathlib

/-!
Verification of the hacknation-congestion collection scripts.

This file gives a shallow embedding, in Lean 4, of the collection pattern
implemented by `src/twitter_scraper.py`, `src/bast.py` and
`src/bast_traffic.py`, and proves (or refutes) the specified properties of
the Seen-Set deduplication, checkpointing, detail-enriching fetchers,
proportional target scheduler, severity classifier and CSV batch writer.

Modelling conventions:
* Python dictionaries become structures; a field read with `d.get(k, default)`
  whose key may be absent becomes an `Option` field read with `Option.getD`.
* Network calls, `random.*` draws and wall-clock reads are external inputs:
  each embedded function takes them as explicit arguments (oracles / draw
  records), so the embedded functions are pure and executable.
* Python `float` coordinates are modelled as exact rationals `ℚ`; `round(x, 6)`
  becomes `py_round6`, which uses round-half-to-even like Python's `round`.
* Python sets of strings are modelled as `List String` used up to membership;
  `set.update` inserts only absent elements so list order is the only extra
  information.
* Exceptions are modelled by explicit result constructors (`HttpResult.exn`);
  a `try/except` block becomes a `match` on that constructor.
-/

/-! ## Generic Python-behaviour helpers -/

/-- Substring occurrence on character lists: does `needle` occur inside `hay`?
Models the Python expression `needle in hay` on strings. -/
def sub_occurs (needle : List Char) : List Char → Bool
  | [] => needle.isEmpty
  | c :: rest => needle.isPrefixOf (c :: rest) || sub_occurs needle rest

/-- Python `word in text` for strings. -/
def py_in (word text : String) : Bool :=
  sub_occurs word.data text.data

/-- Python `str.lower()` (ASCII case folding; the embedded keyword tables and
titles are compared after this folding exactly as the source does). -/
def py_lower (s : String) : String :=
  ⟨s.data.map Char.toLower⟩

/-- Round-half-to-even on rationals, the semantics of Python's builtin
`round` at integer resolution. -/
def round_half_even (q : ℚ) : ℤ :=
  let f := ⌊q⌋
  let r := q - f
  if r < 1/2 then f else if 1/2 < r then f + 1 else if f % 2 = 0 then f else f + 1

/-- Python `round(x, 6)` on exact rationals. -/
def py_round6 (q : ℚ) : ℚ :=
  (round_half_even (q * 1000000) : ℚ) / 1000000

/-- Python truthiness of an optional string (`None` and `""` are falsy). -/
def py_truthy : Option String → Bool
  | none => false
  | some s => !(s == "")

/-! ## twitter_scraper.py — configuration (class Config) -/

/-- Config.TARGET_POSTS. -/
def TARGET_POSTS : Nat := 20000

/-- Config.BATCH_SIZE. -/
def BATCH_SIZE : Nat := 1000

/-- Config.SOURCE_DISTRIBUTION, in insertion (iteration) order. -/
def SOURCE_DISTRIBUTION : List (String × Nat) :=
  [("reddit", 7000), ("wikipedia", 4000), ("osm", 3000), ("news", 2000), ("events", 4000)]

/-! ## twitter_scraper.py — records and progress tracker -/

/-- One flattened post record as built by the collectors in
twitter_scraper.py.  `latitude`/`longitude`/`views`/`score`/`location_name`
are optional because `save_batch` reads them with `dict.get` defaults; the
remaining fields are set by every producer in the file. -/
structure Post where
  platform : String
  post_id : String
  title : String
  author : String
  date : String
  latitude : Option ℚ
  longitude : Option ℚ
  location_name : Option String
  tags : String
  views : Option ℤ
  score : Option ℤ
  url : String
deriving DecidableEq

/-- ProgressTracker state: per-source collected counts (an insertion-ordered
string-keyed map) and the Seen-Set of composite post keys. -/
structure Tracker where
  collected : List (String × Nat)
  seen_ids : List String
deriving DecidableEq

/-- `self.collected.get(source, 0)`. -/
def lookup_collected (m : List (String × Nat)) (s : String) : Nat :=
  match m with
  | [] => 0
  | (k, v) :: rest => if k = s then v else lookup_collected rest s

/-- `self.collected[source] = n` (insertion-ordered dict update). -/
def set_collected : List (String × Nat) → String → Nat → List (String × Nat)
  | [], s, n => [(s, n)]
  | (k, v) :: rest, s, n =>
      if k = s then (k, n) :: rest else (k, v) :: set_collected rest s n

/-- `self.seen_ids.update(new_ids)`: set union, inserting only absent keys. -/
def seen_insert_all (seen : List String) : List String → List String
  | [] => seen
  | i :: rest => seen_insert_all (if i ∈ seen then seen else seen ++ [i]) rest

/-- ProgressTracker.update: add `count` to the source's collected count and
merge `new_ids` into the Seen-Set. -/
def tracker_update (t : Tracker) (source : String) (count : Nat)
    (new_ids : List String) : Tracker :=
  { collected := set_collected t.collected source (lookup_collected t.collected source + count)
    seen_ids := seen_insert_all t.seen_ids new_ids }

/-- ProgressTracker.get_total: sum of all per-source collected counts. -/
def get_total (t : Tracker) : Nat :=
  (t.collected.map Prod.snd).sum

/-- A tracker with no progress and an empty Seen-Set. -/
def empty_tracker : Tracker := ⟨[], []⟩

/-! ## twitter_scraper.py — checkpoint store (ProgressTracker.save_checkpoint /
load_checkpoint) -/

/-- The checkpoint JSON document written by `save_checkpoint`
(`{collected, seen_ids, timestamp}`), at data level. -/
structure SavedCheckpoint where
  collected : List (String × Nat)
  seen_ids : List String
  timestamp : String
deriving DecidableEq

/-- ProgressTracker.save_checkpoint, data level: the document that
`json.dump` serialises.  Note the source stores `list(self.seen_ids)[:10000]`:
only the first 10000 Seen-Set entries survive. -/
def save_checkpoint (t : Tracker) (timestamp : String) : SavedCheckpoint :=
  { collected := t.collected
    seen_ids := t.seen_ids.take 10000
    timestamp := timestamp }

/-- ProgressTracker.load_checkpoint, data level: on a parseable checkpoint it
restores `collected` and `seen_ids` (`set(...)` — membership semantics) and
ignores the timestamp. -/
def load_checkpoint (f : SavedCheckpoint) : Tracker :=
  { collected := f.collected
    seen_ids := f.seen_ids }

/-! ### File-system model for the checkpoint write

`save_checkpoint` performs `open(self.checkpoint_file, 'w')` followed by
`json.dump`.  We model the file system as `String → Option String` and the
write as a sequence of primitive operations, so that the intermediate on-disk
states (what a crash mid-write leaves behind) are observable. -/

/-- Primitive file-system operations. -/
inductive FsOp where
  /-- `open(path, 'w')`: create/truncate the file to empty. -/
  | truncate_open (path : String)
  /-- Append `content` to the (already opened) file. -/
  | write (path : String) (content : String)
  /-- Atomic rename of `src` over `dst` (NOT used by the source; present so
  that the atomic-replace property can be stated). -/
  | rename_file (src dst : String)
deriving DecidableEq

/-- Apply one file-system operation. -/
def apply_op (fs : String → Option String) : FsOp → (String → Option String)
  | .truncate_open p => fun q => if q = p then some "" else fs q
  | .write p c => fun q => if q = p then some ((fs p).getD "" ++ c) else fs q
  | .rename_file src dst =>
      fun q => if q = dst then fs src else if q = src then none else fs q

/-- Apply a sequence of file-system operations. -/
def fs_after (ops : List FsOp) (fs : String → Option String) : String → Option String :=
  ops.foldl apply_op fs

/-- JSON string literal (checkpoint ids contain no characters needing
escapes). -/
def json_quote (s : String) : String := "\"" ++ s ++ "\""

/-- Serialisation of the checkpoint document, modelling the `json.dump`
output text. -/
def serialize_checkpoint (f : SavedCheckpoint) : String :=
  "\x7b\"collected\": \x7b"
    ++ String.intercalate ", " (f.collected.map (fun p => json_quote p.1 ++ ": " ++ toString p.2))
    ++ "\x7d, \"seen_ids\": ["
    ++ String.intercalate ", " (f.seen_ids.map json_quote)
    ++ "], \"timestamp\": " ++ json_quote f.timestamp ++ "\x7d"

/-- The file-system operations `save_checkpoint` performs: a direct
truncating open of the destination followed by the serialised write.  There
is no temporary file and no rename in the source. -/
def save_checkpoint_ops (ck_file : String) (t : Tracker) (timestamp : String) : List FsOp :=
  [FsOp.truncate_open ck_file,
   FsOp.write ck_file (serialize_checkpoint (save_checkpoint t timestamp))]

/-- The claimed atomicity property of a checkpoint write: after every prefix
of the performed operations, the destination file holds either the old or the
new checkpoint text. -/
def atomic_save (ck_file : String) (t : Tracker) (timestamp : String)
    (fs : String → Option String) (old : String) : Prop :=
  ∀ k, (fs_after ((save_checkpoint_ops ck_file t timestamp).take k) fs) ck_file
          = some old
      ∨ (fs_after ((save_checkpoint_ops ck_file t timestamp).take k) fs) ck_file
          = some (serialize_checkpoint (save_checkpoint t timestamp))

/-! ## twitter_scraper.py — collectors -/

/-- The result-gathering loop over completed futures (or sequential bbox
fetches): extend the accumulator with each result in completion order and
stop once `threshold` posts have been gathered.  A worker that raised
contributes the empty list. -/
def gather_results (threshold : Nat) (acc : List Post) : List (List Post) → List Post
  | [] => acc
  | r :: rest =>
      let acc' := acc ++ r
      if threshold ≤ acc'.length then acc' else gather_results threshold acc' rest

/-- The per-batch deduplication loop shared by the Reddit / Wikipedia / OSM
collectors: keep the posts whose `key_pre ++ post_id` is absent from the
Seen-Set *as it was at batch start*, collecting the keys of kept posts.
The loop never consults the keys it has itself just collected, so two
in-batch posts with the same id are both kept. -/
def dedupe_batch (seen : List String) (key_pre : String) :
    List Post → List Post × List String
  | [] => ([], [])
  | p :: rest =>
      let pid := key_pre ++ p.post_id
      let r := dedupe_batch seen key_pre rest
      if pid ∈ seen then r else (p :: r.1, pid :: r.2)

/-- RedditGermanyMassCollector.collect_batch.  `fetch_results` are the
per-future post lists in completion order (network and location extraction
are external). -/
def reddit_collect_batch (t : Tracker) (fetch_results : List (List Post))
    (batch_size : Nat) : List Post × Tracker :=
  let posts := gather_results batch_size [] fetch_results
  let d := dedupe_batch t.seen_ids "reddit_" posts
  let t' := tracker_update t "reddit" d.1.length d.2
  (d.1.take batch_size, t')

/-- WikipediaGermanyMassCollector.collect_batch (gathers up to
`batch_size * 2` raw articles before deduplicating). -/
def wikipedia_collect_batch (t : Tracker) (fetch_results : List (List Post))
    (batch_size : Nat) : List Post × Tracker :=
  let posts := gather_results (batch_size * 2) [] fetch_results
  let d := dedupe_batch t.seen_ids "wiki_" posts
  let t' := tracker_update t "wikipedia" d.1.length d.2
  (d.1.take batch_size, t')

/-- OSMGermanyMassCollector.collect_batch (sequential grid fetch, stops at
`batch_size * 2` raw changesets, then deduplicates). -/
def osm_collect_batch (t : Tracker) (fetch_results : List (List Post))
    (batch_size : Nat) : List Post × Tracker :=
  let posts := gather_results (batch_size * 2) [] fetch_results
  let d := dedupe_batch t.seen_ids "osm_" posts
  let t' := tracker_update t "osm" d.1.length d.2
  (d.1.take batch_size, t')

/-- One entry of the GERMAN_CITIES gazetteer (treated as external data). -/
structure City where
  name : String
  state : String
  lat : ℚ
  lon : ℚ
  pop : Nat
deriving DecidableEq

/-- The external inputs consumed by one iteration of the events generator
loop: the `random.*` draws, the formatted date strings and the millisecond
clock reading `int(time.time()*1000)`. -/
structure EventDraw where
  event_type : String
  category : String
  city_key : String
  city : City
  month_year : String
  date_iso : String
  lat_jitter : ℚ
  lon_jitter : ℚ
  veranstalter : Nat
  views : ℤ
  ms_clock : Nat
deriving DecidableEq

/-- Python `state.lower().replace(' ', '_')` used for tags. -/
def state_tag (state : String) : String :=
  (py_lower state).replace " " "_"

/-- One generated event post (loop body of
GermanEventsMassGenerator.generate_batch). -/
def mk_event_post (d : EventDraw) (i : Nat) : Post :=
  let event_id := "evt_" ++ toString d.ms_clock ++ "_" ++ toString i
  { platform := "German Events"
    post_id := event_id
    title := d.event_type ++ " in " ++ d.city.name ++ " - " ++ d.month_year
    author := "Veranstalter_" ++ toString d.veranstalter
    date := d.date_iso
    latitude := some (py_round6 (d.city.lat + d.lat_jitter))
    longitude := some (py_round6 (d.city.lon + d.lon_jitter))
    location_name := some (d.city.name ++ ", " ++ d.city.state)
    tags := "event," ++ d.category ++ "," ++ state_tag d.city.state
    views := some d.views
    score := none
    url := "https://events.de/" ++ d.city_key ++ "/" ++ event_id }

/-- GermanEventsMassGenerator.generate_batch: generates `batch_size` posts
unconditionally, then records their keys.  It never consults the Seen-Set
and returns every generated post. -/
def events_generate_batch (t : Tracker) (draws : Nat → EventDraw)
    (batch_size : Nat) : List Post × Tracker :=
  let posts := (List.range batch_size).map (fun i => mk_event_post (draws i) i)
  let new_ids := posts.map (fun p => "event_" ++ p.post_id)
  let t' := tracker_update t "events" posts.length new_ids
  (posts, t')

/-- The external inputs consumed by one iteration of the news generator
loop (template formatting, random choices, clock readings). -/
structure NewsDraw where
  city : City
  title : String
  author : String
  topic : String
  date_iso : String
  lat_jitter : ℚ
  lon_jitter : ℚ
  views : ℤ
  ms_clock : Nat
  url_ts : Nat
deriving DecidableEq

/-- One generated news post (loop body of
GermanNewsMassCollector.collect_batch). -/
def mk_news_post (d : NewsDraw) (i : Nat) : Post :=
  { platform := "German News"
    post_id := "news_" ++ toString d.ms_clock ++ "_" ++ toString i
    title := d.title.take 200
    author := d.author
    date := d.date_iso
    latitude := some (d.city.lat + d.lat_jitter)
    longitude := some (d.city.lon + d.lon_jitter)
    location_name := some (d.city.name ++ ", " ++ d.city.state)
    tags := "news," ++ py_lower d.city.state ++ "," ++ py_lower d.topic
    views := some d.views
    score := none
    url := "https://news.de/article/" ++ toString d.url_ts ++ "_" ++ toString i }

/-- GermanNewsMassCollector.collect_batch: generates `batch_size` posts
unconditionally, records their keys, never consults the Seen-Set. -/
def news_collect_batch (t : Tracker) (draws : Nat → NewsDraw)
    (batch_size : Nat) : List Post × Tracker :=
  let posts := (List.range batch_size).map (fun i => mk_news_post (draws i) i)
  let new_ids := posts.map (fun p => "news_" ++ p.post_id)
  let t' := tracker_update t "news" posts.length new_ids
  (posts, t')

/-! ## twitter_scraper.py — scheduler (GermanyMassCollector.collect_to_target) -/

/-- The external world across scheduler iterations: per-iteration fetch
results for the network collectors and per-iteration draw streams for the
generators. -/
structure Env where
  reddit_fetch : Nat → List (List Post)
  wikipedia_fetch : Nat → List (List Post)
  osm_fetch : Nat → List (List Post)
  events_draws : Nat → Nat → EventDraw
  news_draws : Nat → Nat → NewsDraw

/-- The source dispatch inside the scheduler loop body (the if/elif chain on
the source name; the `current_count < target_count` re-checks of the source
are redundant under the enclosing guard and the final arm is unreachable for
the fixed SOURCE_DISTRIBUTION). -/
def dispatch_source (env : Env) (iter : Nat) (source : String) (needed : Nat)
    (t : Tracker) : List Post × Tracker :=
  if source = "reddit" then reddit_collect_batch t (env.reddit_fetch iter) needed
  else if source = "wikipedia" then wikipedia_collect_batch t (env.wikipedia_fetch iter) needed
  else if source = "osm" then osm_collect_batch t (env.osm_fetch iter) needed
  else if source = "events" then events_generate_batch t (env.events_draws iter) needed
  else if source = "news" then news_collect_batch t (env.news_draws iter) needed
  else ([], t)

/-- Result of one full scheduler iteration: the updated tracker, the batch
posts gathered (in source order), and the log of (source, requested size)
collector invocations. -/
structure IterResult where
  tracker : Tracker
  batch_posts : List Post
  requests : List (String × Nat)
deriving DecidableEq

/-- The per-iteration source loop of collect_to_target: for every
source-category still below its quota, request
`min(BATCH_SIZE, target_count - current_count)` records from its collector;
sources at quota are skipped. -/
def run_sources (env : Env) (iter : Nat) :
    List (String × Nat) → Tracker → IterResult
  | [], t => ⟨t, [], []⟩
  | (source, target_count) :: rest, t =>
      let current_count := lookup_collected t.collected source
      if current_count < target_count then
        let needed := min BATCH_SIZE (target_count - current_count)
        let pt := dispatch_source env iter source needed t
        let r := run_sources env iter rest pt.2
        ⟨r.tracker, pt.1 ++ r.batch_posts, (source, needed) :: r.requests⟩
      else run_sources env iter rest t

/-- The collect_to_target while-loop, observed for `fuel` iterations: `some`
means the loop exited (total reached TARGET_POSTS) within `fuel` iterations,
`none` means it was still running.  The loop has no other exit: nothing
detects an iteration that produced zero new records. -/
def collect_to_target (env : Env) : Nat → Nat → Tracker → Option Tracker
  | 0, _, t => if TARGET_POSTS ≤ get_total t then some t else none
  | fuel + 1, iter, t =>
      if TARGET_POSTS ≤ get_total t then some t
      else collect_to_target env fuel (iter + 1) (run_sources env iter SOURCE_DISTRIBUTION t).tracker

/-! ## twitter_scraper.py — sink side (save_batch and merge_all_csvs) -/

/-- One CSV row as written by GermanyMassCollector.save_batch (typed values
before CSV text rendering). -/
structure SavedRow where
  platform : String
  post_id : String
  title : String
  author : String
  date : String
  latitude : ℚ
  longitude : ℚ
  location_name : String
  tags : String
  url : String
  views_or_score : ℤ
deriving DecidableEq

/-- The row construction in save_batch: missing coordinates default to
Berlin (52.5200 / 13.4050) and both are rounded to 6 decimal places; the
title is newline-stripped and truncated to 200 characters; `views_or_score`
falls back from `views` to `score` to 0. -/
def save_batch_row (p : Post) : SavedRow :=
  { platform := p.platform
    post_id := p.post_id
    title := (p.title.replace "\n" " ").take 200
    author := p.author
    date := p.date
    latitude := py_round6 (p.latitude.getD (52.52 : ℚ))
    longitude := py_round6 (p.longitude.getD (13.405 : ℚ))
    location_name := p.location_name.getD "Germany"
    tags := p.tags
    url := p.url
    views_or_score := p.views.getD (p.score.getD 0) }

/-- GermanyMassCollector.save_batch: one CSV row per post, in order. -/
def save_batch (posts : List Post) : List SavedRow :=
  posts.map save_batch_row

/-- One CSV row as read back by merge_all_csvs (csv.DictReader yields
strings). -/
structure CsvRow where
  platform : String
  post_id : String
  title : String
  author : String
  date : String
  latitude : String
  longitude : String
  location_name : String
  tags : String
  url : String
  views_or_score : String
deriving DecidableEq

/-- The deduplication key of merge_all_csvs: `f"{platform}_{post_id}"`. -/
def row_key (r : CsvRow) : String :=
  r.platform ++ "_" ++ r.post_id

/-- The merge loop of merge_all_csvs with its running `seen` key set. -/
def merge_dedup_from (seen : List String) : List CsvRow → List CsvRow
  | [] => []
  | r :: rest =>
      let k := row_key r
      if k ∈ seen then merge_dedup_from seen rest
      else r :: merge_dedup_from (k :: seen) rest

/-- The duplicate-removal step of GermanyMassCollector.merge_all_csvs over
the concatenated rows of all batch CSVs. -/
def merge_dedup (rows : List CsvRow) : List CsvRow :=
  merge_dedup_from [] rows

/-! ## bast.py / bast_traffic.py — detail-enriching fetchers

A `requests.get` call either raises (timeout, connection error) or returns a
response with a status code and a parsed JSON body; both fetchers only act on
status 200 bodies. -/

/-- Outcome of one HTTP call. -/
inductive HttpResult (α : Type) where
  /-- The call raised (timeout, connection refused, malformed body, ...). -/
  | exn : HttpResult α
  /-- The call returned `status` with parsed body `body`. -/
  | resp (status : Nat) (body : α) : HttpResult α
deriving DecidableEq

/-- The detail document of one traffic warning
(`/details/warning/{identifier}`), with the fields the scrapers read.
Fields read via `details.get(k, default)` are `Option`s. -/
structure WarnDetails where
  identifier : String
  title : Option String
  subtitle : Option String
  description_items : List String
  coord_lat : Option String
  coord_long : Option String
  is_roadworks : Bool
  start_timestamp : Option String
  end_timestamp : Option String
  display_type : Option String
  extent : Option String
  location_desc : Option String
  category : Option String
deriving DecidableEq

/-- EnhancedTrafficWarningScraper._determine_severity: keyword
classification of the warning title+subtitle.  The documented scale is
1..5 with 4 = Accident, but no branch returns 4. -/
def determine_severity (d : WarnDetails) : Nat :=
  let text := py_lower (d.title.getD "" ++ " " ++ d.subtitle.getD "")
  if ["gefahr", "danger", "unfall", "accident", "vollsperrung"].any
      (fun w => py_in w text) then 5
  else if ["stau", "congestion", "verzögerung"].any (fun w => py_in w text) then 3
  else if d.is_roadworks then 2
  else 1

/-- Python `' '.join(details.get('description', []))`. -/
def join_description (items : List String) : String :=
  String.intercalate " " items

/-- The text `str(details)` that the keyword detectors search, modelled as
the concatenation of the detail document's textual content (used only for
case-insensitive substring tests). -/
def details_text (d : WarnDetails) : String :=
  String.intercalate " "
    [d.identifier, d.title.getD "", d.subtitle.getD "",
     join_description d.description_items, d.coord_lat.getD "",
     d.coord_long.getD "", (if d.is_roadworks then "True" else "False"),
     d.start_timestamp.getD "", d.end_timestamp.getD "",
     d.display_type.getD "", d.extent.getD "", d.location_desc.getD "",
     d.category.getD ""]

/-- EnhancedTrafficWarningScraper._check_if_accident. -/
def check_if_accident (d : WarnDetails) : Bool :=
  ["unfall", "accident", "crash", "kollision", "verunglückt"].any
    (fun k => py_in k (py_lower (details_text d)))

/-- EnhancedTrafficWarningScraper._check_if_congestion. -/
def check_if_congestion (d : WarnDetails) : Bool :=
  ["stau", "congestion", "traffic jam", "stockender verkehr", "zähfließend"].any
    (fun k => py_in k (py_lower (details_text d)))

/-- EnhancedTrafficWarningScraper._check_weather_related. -/
def check_weather_related (d : WarnDetails) : Bool :=
  ["regen", "rain", "schnee", "snow", "eis", "ice", "nebel", "fog", "sturm",
   "storm", "gewitter", "wetter", "weather"].any
    (fun k => py_in k (py_lower (details_text d)))

/-- One enriched warning record (EnhancedTrafficWarningScraper).  Fields
whose computation is pure I/O-free incidental machinery not referenced by
any verified property are omitted from the model: `unique_hash` (an md5
digest), `duration_minutes` / `delay_minutes` / the `day_of_week` family
(datetime parsing), `affected_lanes` / `speed_limit` (regex search),
`last_updated` (wall clock), `impact` and `raw_data` (raw payload copies). -/
structure WarningData where
  highway : String
  warning_id : String
  latitude : Option String
  longitude : Option String
  location_description : String
  title : String
  subtitle : String
  description : String
  start_timestamp : Option String
  end_timestamp : Option String
  extent : String
  display_type : String
  category : String
  severity : Nat
  is_roadworks : Bool
  is_accident : Bool
  is_congestion : Bool
  weather_related : Bool
  history : List String
  has_precise_location : Bool
  coordinate_string : Option String
deriving DecidableEq

/-- EnhancedTrafficWarningScraper._process_warning_details: flatten one
detail document into a warning record (before history and enrichment). -/
def process_warning_details (d : WarnDetails) (highway : String) : WarningData :=
  { highway := highway
    warning_id := d.identifier
    latitude := d.coord_lat
    longitude := d.coord_long
    location_description := d.location_desc.getD ""
    title := d.title.getD ""
    subtitle := d.subtitle.getD ""
    description := join_description d.description_items
    start_timestamp := d.start_timestamp
    end_timestamp := d.end_timestamp
    extent := d.extent.getD ""
    display_type := d.display_type.getD ""
    category := d.category.getD ""
    severity := determine_severity d
    is_roadworks := d.is_roadworks
    is_accident := check_if_accident d
    is_congestion := check_if_congestion d
    weather_related := check_weather_related d
    history := []
    has_precise_location := false
    coordinate_string := none }

/-- EnhancedTrafficWarningScraper._enrich_warning_data (the datetime-derived
fields are omitted, see `WarningData`). -/
def enrich_warning_data (w : WarningData) : WarningData :=
  if py_truthy w.latitude && py_truthy w.longitude then
    { w with has_precise_location := true
             coordinate_string := some (w.latitude.getD "" ++ "," ++ w.longitude.getD "") }
  else { w with has_precise_location := false }

/-- The full processing of one warning item inside
get_traffic_warnings_detailed: flatten, optionally attach history
(`self.warning_history.get(id, [])`, via `hist_map`), enrich. -/
def mk_warning_record (hist_map : String → List String) (highway : String)
    (include_history : Bool) (wid : String) (d : WarnDetails) : WarningData :=
  let w := process_warning_details d highway
  let w' := if include_history then { w with history := hist_map wid } else w
  enrich_warning_data w'

/-- The per-item loop of
EnhancedTrafficWarningScraper.get_traffic_warnings_detailed: each item's
detail fetch is wrapped in its own try/except, so a raising call skips only
that item and processing continues with the rest. -/
def warning_items_loop (hist_map : String → List String)
    (detail : String → HttpResult WarnDetails) (highway : String)
    (include_history : Bool) : List String → List WarningData
  | [] => []
  | wid :: rest =>
      match detail wid with
      | .exn => warning_items_loop hist_map detail highway include_history rest
      | .resp status d =>
          if status = 200 then
            mk_warning_record hist_map highway include_history wid d
              :: warning_items_loop hist_map detail highway include_history rest
          else warning_items_loop hist_map detail highway include_history rest

/-- EnhancedTrafficWarningScraper.get_traffic_warnings_detailed: a failing
or non-200 list call yields no warnings; otherwise each listed identifier is
detail-fetched by the per-item loop. -/
def get_traffic_warnings_detailed (hist_map : String → List String)
    (detail : String → HttpResult WarnDetails) (highway : String)
    (include_history : Bool) (list_result : HttpResult (List String)) :
    List WarningData :=
  match list_result with
  | .exn => []
  | .resp status items =>
      if status = 200 then
        warning_items_loop hist_map detail highway include_history items
      else []

/-- The detail document of one webcam (`/details/webcam/{identifier}`). -/
structure WebcamDetails where
  title : Option String
  subtitle : Option String
  coord_lat : Option String
  coord_long : Option String
  operator : Option String
  direction : Option String
  linkurl : Option String
  imageurl : Option String
deriving DecidableEq

/-- One webcam location record (BAStRealTimeTrafficScraper). -/
structure WebcamRec where
  autobahn : String
  webcam_id : String
  title : Option String
  subtitle : Option String
  latitude : Option String
  longitude : Option String
  operator : Option String
  direction : Option String
  link_url : Option String
  image_url : Option String
deriving DecidableEq

/-- The record appended for one webcam in get_webcam_locations. -/
def mk_webcam_rec (autobahn wid : String) (d : WebcamDetails) : WebcamRec :=
  { autobahn := autobahn
    webcam_id := wid
    title := d.title
    subtitle := d.subtitle
    latitude := d.coord_lat
    longitude := d.coord_long
    operator := d.operator
    direction := d.direction
    link_url := d.linkurl
    image_url := d.imageurl }

/-- The per-item loop of BAStRealTimeTrafficScraper.get_webcam_locations.
The single try/except wraps the WHOLE loop, so a raising detail call aborts
the remaining items: only the records accumulated before the failure are
returned.  A non-200 detail response merely skips its item. -/
def webcam_items_loop (detail : String → HttpResult WebcamDetails)
    (autobahn : String) : List String → List WebcamRec
  | [] => []
  | wid :: rest =>
      match detail wid with
      | .exn => []
      | .resp status d =>
          if status = 200 then
            mk_webcam_rec autobahn wid d :: webcam_items_loop detail autobahn rest
          else webcam_items_loop detail autobahn rest

/-- BAStRealTimeTrafficScraper.get_webcam_locations. -/
def get_webcam_locations (detail : String → HttpResult WebcamDetails)
    (autobahn : String) (list_result : HttpResult (List String)) :
    List WebcamRec :=
  match list_result with
  | .exn => []
  | .resp status items =>
      if status = 200 then webcam_items_loop detail autobahn items else []

/-! ## Concrete sample inputs used to evaluate the definitions -/

/-- A sample gazetteer entry. -/
def sample_city : City :=
  { name := "Berlin", state := "Berlin", lat := 52.52, lon := 13.405, pop := 3669491 }

/-- A fixed draw for the events generator. -/
def sample_event_draw : EventDraw :=
  { event_type := "Konzert", category := "music", city_key := "berlin"
    city := sample_city, month_year := "May 2025"
    date_iso := "2025-05-01T00:00:00", lat_jitter := 0, lon_jitter := 0
    veranstalter := 100, views := 50, ms_clock := 5 }

/-- A fixed draw for the news generator. -/
def sample_news_draw : NewsDraw :=
  { city := sample_city, title := "Neue Entwicklung in Berlin: Digitalisierung"
    author := "Tagesschau", topic := "Digitalisierung"
    date_iso := "2025-05-01T00:00:00", lat_jitter := 0, lon_jitter := 0
    views := 100, ms_clock := 5, url_ts := 1 }

/-- An environment in which every network source yields nothing and the
generators read fixed draws. -/
def quiet_env : Env :=
  { reddit_fetch := fun _ => []
    wikipedia_fetch := fun _ => []
    osm_fetch := fun _ => []
    events_draws := fun _ _ => sample_event_draw
    news_draws := fun _ _ => sample_news_draw }

/-- A sample Reddit-shaped post (coordinates left absent so that record
comparisons stay in the string fragment). -/
def sample_post (pid title : String) : Post :=
  { platform := "Reddit", post_id := pid, title := title
    author := "author", date := "2025-05-01T00:00:00", latitude := none
    longitude := none, location_name := some "Berlin, Berlin"
    tags := "reddit,berlin,hot", views := some 1, score := none
    url := "https://reddit.com/x" }

/-- A sample warning detail document. -/
def sample_warn_details : WarnDetails :=
  { identifier := "W1", title := some "Stau", subtitle := some "A1"
    description_items := ["stockender Verkehr"], coord_lat := some "51.0"
    coord_long := some "7.0", is_roadworks := false
    start_timestamp := some "2025-05-01T00:00:00", end_timestamp := none
    display_type := some "WARNING", extent := none, location_desc := none
    category := none }

/-- A sample webcam detail document. -/
def sample_webcam_details : WebcamDetails :=
  { title := some "A1 km 12", subtitle := some "Blickrichtung Nord"
    coord_lat := some "51.0", coord_long := some "7.0"
    operator := some "Autobahn GmbH", direction := some "N"
    linkurl := some "https://example.org", imageurl := some "https://example.org/i" }

/-- A detail oracle for which exactly the item `"X42"` raises and every
other item returns a 200 response. -/
def x42_warn_detail : String → HttpResult WarnDetails :=
  fun wid => if wid = "X42" then .exn else .resp 200 sample_warn_details

/-- The webcam analogue of `x42_warn_detail`. -/
def x42_webcam_detail : String → HttpResult WebcamDetails :=
  fun wid => if wid = "X42" then .exn else .resp 200 sample_webcam_details

/-- A tracker resumed from a checkpoint on which the generator quotas
(events 4000, news 2000) are already met. -/
def generators_done_tracker : Tracker :=
  ⟨[("events", 4000), ("news", 2000)], []⟩

/-- The tracker reached from `generators_done_tracker` after one scheduler
iteration in `quiet_env` (the three network collectors each record zero new
posts). -/
def generators_done_tracker' : Tracker :=
  ⟨[("events", 4000), ("news", 2000), ("reddit", 0), ("wikipedia", 0), ("osm", 0)], []⟩

/-- A Seen-Set representation with 10001 pairwise distinct entries. -/
def big_seen_ids : List String :=
  (List.range 10001).map (fun n => String.mk (List.replicate n 'a'))

/-- A checkpointed tracker whose Seen-Set has 10001 entries. -/
def big_tracker : Tracker := ⟨[("reddit", 17)], big_seen_ids⟩

/-- The Seen-Set entry of `big_seen_ids` that the checkpoint truncation
drops. -/
def big_elem : String := String.mk (List.replicate 10000 'a')

/-- The checkpoint file path used by the tracker
(`germany_data/collection_checkpoint.json`). -/
def ck_path : String := "germany_data/collection_checkpoint.json"

/-- A small tracker state with one batch of progress. -/
def one_batch_tracker : Tracker := ⟨[("reddit", 1)], ["reddit_x"]⟩

/-- A file system whose checkpoint file holds the serialisation of the empty
tracker (the "last good" checkpoint). -/
def sample_fs : String → Option String :=
  fun p => if p = ck_path
    then some (serialize_checkpoint (save_checkpoint empty_tracker "t0"))
    else none

/-- A tracker whose Seen-Set already contains the key of the first event
post generated at millisecond clock 5. -/
def events_seen_tracker : Tracker := ⟨[], ["event_evt_5_0"]⟩

/-- A tracker whose Seen-Set contains one Reddit key. -/
def sample_seen_tracker : Tracker := ⟨[], ["reddit_a"]⟩

/-- Two distinct posts sharing one post id (an in-batch duplicate pair). -/
def dup_post_a : Post := sample_post "x" "first"

/-- The second member of the in-batch duplicate pair. -/
def dup_post_b : Post := sample_post "x" "second"

/-- A post with no coordinate fields at all. -/
def no_coord_post : Post :=
  { platform := "Reddit", post_id := "n1", title := "no coords"
    author := "author", date := "2025-05-01T00:00:00", latitude := none
    longitude := none, location_name := none, tags := "reddit", views := none
    score := none, url := "https://reddit.com/n1" }

/-! # Theorems -/

/-! ## Helper lemmas -/

theorem rhe_intCast (z : ℤ) : round_half_even (z : ℚ) = z := by
  unfold round_half_even
  simp

theorem py_round6_exact (z : ℤ) :
    py_round6 ((z : ℚ) / 1000000) = (z : ℚ) / 1000000 := by
  unfold py_round6
  rw [div_mul_cancel₀]
  · rw [rhe_intCast]
  · norm_num

theorem py_round6_berlin_lat : py_round6 (52.52 : ℚ) = 52.52 := by
  have h : (52.52 : ℚ) = ((52520000 : ℤ) : ℚ) / 1000000 := by norm_num
  rw [h, py_round6_exact]

theorem py_round6_berlin_lon : py_round6 (13.405 : ℚ) = 13.405 := by
  have h : (13.405 : ℚ) = ((13405000 : ℤ) : ℚ) / 1000000 := by norm_num
  rw [h, py_round6_exact]

theorem big_elem_mem : big_elem ∈ big_seen_ids :=
  List.mem_map.mpr ⟨10000, List.mem_range.mpr (by norm_num), rfl⟩

theorem big_elem_not_in_take : big_elem ∉ big_seen_ids.take 10000 := by
  intro h
  rw [big_seen_ids, ← List.map_take, List.take_range] at h
  obtain ⟨n, hn, hfn⟩ := List.mem_map.mp h
  have hlt : n < 10000 := by
    have := List.mem_range.mp hn
    omega
  have hrep : List.replicate n 'a' = List.replicate 10000 'a' :=
    congrArg String.data hfn
  have hlen := congrArg List.length hrep
  rw [List.length_replicate, List.length_replicate] at hlen
  omega

theorem warning_items_loop_append (hm : String → List String)
    (det : String → HttpResult WarnDetails) (hw : String) (ih : Bool)
    (a b : List String) :
    warning_items_loop hm det hw ih (a ++ b)
      = warning_items_loop hm det hw ih a ++ warning_items_loop hm det hw ih b := by
  induction a with
  | nil => rfl
  | cons x xs IH =>
      rw [List.cons_append]
      cases hdet : det x with
      | exn => simp [warning_items_loop, hdet, IH]
      | resp st d =>
          by_cases hst : st = 200 <;> simp [warning_items_loop, hdet, hst, IH]

theorem warning_items_loop_all_ok (hm : String → List String)
    (det : String → HttpResult WarnDetails) (hw : String) (ih : Bool)
    (l : List String) (h : ∀ y ∈ l, ∃ d, det y = .resp 200 d) :
    (warning_items_loop hm det hw ih l).length = l.length := by
  induction l with
  | nil => rfl
  | cons x xs IH =>
      obtain ⟨d, hd⟩ := h x (List.mem_cons_self x xs)
      have IH' := IH (fun y hy => h y (List.mem_cons_of_mem x hy))
      simp [warning_items_loop, hd, IH']

/-! ## C8 — the severity classifier never returns 4 -/

/-- C8: for every warning detail document, `_determine_severity` returns one
of 1, 2, 3 or 5 and never the documented accident level 4. -/
theorem determine_severity_never_four (d : WarnDetails) :
    determine_severity d ≠ 4 ∧
      (determine_severity d = 1 ∨ determine_severity d = 2 ∨
       determine_severity d = 3 ∨ determine_severity d = 5) := by
  unfold determine_severity
  dsimp only
  split_ifs <;> simp

/-! ## C2 — the checkpoint write is not an atomic temp-file/rename replace -/

/-- C2 counterexample: saving a one-batch checkpoint over the last-good
checkpoint of the empty tracker passes through an intermediate state in
which the checkpoint file is empty — neither the old nor the new document —
so the write is not atomic. -/
theorem save_checkpoint_not_atomic :
    ¬ atomic_save ck_path one_batch_tracker "t1" sample_fs
        (serialize_checkpoint (save_checkpoint empty_tracker "t0")) := by
  intro h
  rcases h 1 with h1 | h1 <;> exact absurd h1 (by decide)

/-- C2 (amended): `save_checkpoint` writes the destination file in place:
it truncates the checkpoint file (leaving it empty for an interruption
between the open and the write), then writes the new serialisation; the
final state holds the new checkpoint and no rename operation is involved. -/
theorem save_checkpoint_truncates_in_place (ck_file : String) (t : Tracker)
    (ts : String) (fs : String → Option String) :
    (fs_after ((save_checkpoint_ops ck_file t ts).take 1) fs) ck_file = some "" ∧
    (fs_after (save_checkpoint_ops ck_file t ts) fs) ck_file
      = some (serialize_checkpoint (save_checkpoint t ts)) ∧
    ∀ a b, FsOp.rename_file a b ∉ save_checkpoint_ops ck_file t ts := by
  refine ⟨?_, ?_, ?_⟩
  · simp [save_checkpoint_ops, fs_after, apply_op]
  · simp [save_checkpoint_ops, fs_after, apply_op]
  · intro a b
    simp [save_checkpoint_ops]

/-! ## C5 — checkpoint round-trip -/

/-- C5 counterexample: for a checkpoint whose Seen-Set holds 10001 distinct
ids, `load(save(checkpoint))` loses an id (save keeps only
`list(seen_ids)[:10000]`), so the round-trip fails even as sets. -/
theorem load_save_seen (t : Tracker) (ts : String) :
    (load_checkpoint (save_checkpoint t ts)).seen_ids = t.seen_ids.take 10000 := rfl

theorem big_tracker_seen : big_tracker.seen_ids = big_seen_ids := by
  simp only [big_tracker]

theorem checkpoint_roundtrip_fails_on_large_seen_set :
    ¬ ((load_checkpoint (save_checkpoint big_tracker "t")).collected
          = big_tracker.collected ∧
       ∀ x, x ∈ (load_checkpoint (save_checkpoint big_tracker "t")).seen_ids
          ↔ x ∈ big_tracker.seen_ids) := by
  rintro ⟨-, hset⟩
  have h2 := (hset big_elem).mpr (big_tracker_seen ▸ big_elem_mem)
  rw [load_save_seen, big_tracker_seen] at h2
  exact big_elem_not_in_take h2

/-- C5 (amended): for every checkpoint whose Seen-Set has at most 10000
entries, loading immediately after saving restores the per-source counts
exactly and the Seen-Set up to set equality. -/
theorem checkpoint_roundtrip (t : Tracker) (ts : String)
    (h : t.seen_ids.length ≤ 10000) :
    (load_checkpoint (save_checkpoint t ts)).collected = t.collected ∧
    ∀ x, x ∈ (load_checkpoint (save_checkpoint t ts)).seen_ids
      ↔ x ∈ t.seen_ids := by
  refine ⟨rfl, fun x => ?_⟩
  show x ∈ t.seen_ids.take 10000 ↔ x ∈ t.seen_ids
  rw [List.take_of_length_le h]

/-- C5 witness: the round-trip theorem applied to a concrete two-id
checkpoint. -/
theorem checkpoint_roundtrip_witness :
    (⟨[("reddit", 2)], ["reddit_a", "wiki_b"]⟩ : Tracker).seen_ids.length ≤ 10000 ∧
    ((load_checkpoint (save_checkpoint ⟨[("reddit", 2)], ["reddit_a", "wiki_b"]⟩ "t")).collected
        = [("reddit", 2)] ∧
     ∀ x, x ∈ (load_checkpoint
          (save_checkpoint ⟨[("reddit", 2)], ["reddit_a", "wiki_b"]⟩ "t")).seen_ids
        ↔ x ∈ ["reddit_a", "wiki_b"]) :=
  ⟨by decide, checkpoint_roundtrip ⟨[("reddit", 2)], ["reddit_a", "wiki_b"]⟩ "t" (by decide)⟩

/-! ## C3 — single-item failure isolation in the detail-enriching fetchers -/

/-- C3 counterexample: in `get_webcam_locations` (bast.py) the try/except
wraps the whole per-item loop, so when the first of two items raises, the
fetcher returns 0 records instead of the claimed N-1 = 1. -/
theorem webcam_single_failure_discards_batch :
    ¬ ((get_webcam_locations x42_webcam_detail "A1" (.resp 200 ["X42", "W1"])).length
        = (["X42", "W1"] : List String).length - 1) := by
  decide

/-- C3 (amended): in `get_traffic_warnings_detailed` (bast_traffic.py) each
item has its own try/except, so if exactly one item's detail call raises and
every other item returns a 200 detail document, the fetcher still returns
the N-1 enriched records for the remaining items. -/
theorem traffic_warnings_single_failure_isolated (hm : String → List String)
    (det : String → HttpResult WarnDetails) (hw : String) (ih : Bool)
    (pre post : List String) (x : String)
    (hx : det x = .exn)
    (hpre : ∀ y ∈ pre, ∃ d, det y = .resp 200 d)
    (hpost : ∀ y ∈ post, ∃ d, det y = .resp 200 d) :
    (get_traffic_warnings_detailed hm det hw ih (.resp 200 (pre ++ x :: post))).length
      = (pre ++ x :: post).length - 1 := by
  show (warning_items_loop hm det hw ih (pre ++ x :: post)).length = _
  rw [warning_items_loop_append]
  simp only [List.length_append, warning_items_loop, hx,
    warning_items_loop_all_ok hm det hw ih pre hpre,
    warning_items_loop_all_ok hm det hw ih post hpost, List.length_cons]
  omega

/-- C3 witness: the isolation theorem applied to a three-item list whose
middle identifier `"X42"` times out. -/
theorem traffic_warnings_single_failure_isolated_witness :
    x42_warn_detail "X42" = .exn ∧
    (get_traffic_warnings_detailed (fun _ => []) x42_warn_detail "A1" true
        (.resp 200 (["W1"] ++ "X42" :: ["W2"]))).length
      = ((["W1"] : List String) ++ "X42" :: ["W2"]).length - 1 :=
  ⟨rfl,
    traffic_warnings_single_failure_isolated (fun _ => []) x42_warn_detail "A1" true
      ["W1"] ["W2"] "X42" rfl
      (fun y hy => ⟨sample_warn_details, by
        rcases List.mem_singleton.mp hy with rfl
        rfl⟩)
      (fun y hy => ⟨sample_warn_details, by
        rcases List.mem_singleton.mp hy with rfl
        rfl⟩)⟩

/-! ## C10 — save_batch always writes 6-decimal coordinates -/

/-- C10: every row written by save_batch carries numeric coordinates that
are exact 6-decimal values, obtained by rounding the post's coordinates with
the Berlin defaults 52.5200 / 13.4050 substituted for absent fields; in
particular a post lacking a coordinate field still yields a row with the
default coordinate. -/
theorem save_batch_rows_have_coordinates (posts : List Post) (r : SavedRow)
    (hr : r ∈ save_batch posts) :
    (∃ z : ℤ, r.latitude = (z : ℚ) / 1000000) ∧
    (∃ z : ℤ, r.longitude = (z : ℚ) / 1000000) ∧
    ∃ p, p ∈ posts ∧ r = save_batch_row p ∧
      r.latitude = py_round6 (p.latitude.getD (52.52 : ℚ)) ∧
      r.longitude = py_round6 (p.longitude.getD (13.405 : ℚ)) ∧
      (p.latitude = none → r.latitude = 52.52) ∧
      (p.longitude = none → r.longitude = 13.405) := by
  obtain ⟨p, hp, hpr⟩ := List.mem_map.mp hr
  subst hpr
  refine ⟨⟨round_half_even ((p.latitude.getD (52.52 : ℚ)) * 1000000), rfl⟩,
          ⟨round_half_even ((p.longitude.getD (13.405 : ℚ)) * 1000000), rfl⟩,
          p, hp, rfl, rfl, rfl, ?_, ?_⟩
  · intro h
    have e : (save_batch_row p).latitude = py_round6 (p.latitude.getD (52.52 : ℚ)) := rfl
    rw [e, h]
    exact py_round6_berlin_lat
  · intro h
    have e : (save_batch_row p).longitude = py_round6 (p.longitude.getD (13.405 : ℚ)) := rfl
    rw [e, h]
    exact py_round6_berlin_lon

/-- C10 witness: the row theorem applied to a concrete post with no
coordinate fields. -/
theorem save_batch_rows_have_coordinates_witness :
    save_batch_row no_coord_post ∈ save_batch [no_coord_post] ∧
    ((∃ z : ℤ, (save_batch_row no_coord_post).latitude = (z : ℚ) / 1000000) ∧
     (∃ z : ℤ, (save_batch_row no_coord_post).longitude = (z : ℚ) / 1000000) ∧
     ∃ p, p ∈ [no_coord_post] ∧ save_batch_row no_coord_post = save_batch_row p ∧
       (save_batch_row no_coord_post).latitude = py_round6 (p.latitude.getD (52.52 : ℚ)) ∧
       (save_batch_row no_coord_post).longitude = py_round6 (p.longitude.getD (13.405 : ℚ)) ∧
       (p.latitude = none → (save_batch_row no_coord_post).latitude = 52.52) ∧
       (p.longitude = none → (save_batch_row no_coord_post).longitude = 13.405)) := by
  have hmem : save_batch_row no_coord_post ∈ save_batch [no_coord_post] :=
    List.mem_singleton.mpr rfl
  exact ⟨hmem, save_batch_rows_have_coordinates [no_coord_post] _ hmem⟩

/-! ## C1 — Seen-Set filtering at emission time -/

theorem dedupe_batch_mem_not_seen (seen : List String) (key_pre : String) :
    ∀ (l : List Post) (p : Post), p ∈ (dedupe_batch seen key_pre l).1 →
      key_pre ++ p.post_id ∉ seen := by
  intro l
  induction l with
  | nil =>
      intro p hp
      simp [dedupe_batch] at hp
  | cons q rest IH =>
      intro p hp
      by_cases hq : key_pre ++ q.post_id ∈ seen
      · have he : (dedupe_batch seen key_pre (q :: rest)).1
            = (dedupe_batch seen key_pre rest).1 := by
          simp [dedupe_batch, hq]
        rw [he] at hp
        exact IH p hp
      · have he : (dedupe_batch seen key_pre (q :: rest)).1
            = q :: (dedupe_batch seen key_pre rest).1 := by
          simp [dedupe_batch, hq]
        rw [he] at hp
        rcases List.mem_cons.mp hp with h | h
        · subst h; exact hq
        · exact IH p h

/-- C1 (amended): the three network collectors (Reddit, Wikipedia, OSM) emit
only records whose composite key was absent from the Seen-Set at the start
of the batch.  (As the counterexample shows, the events and news generators
do not consult the Seen-Set at all, so the claim fails for them.) -/
theorem network_collectors_emit_only_unseen (t : Tracker)
    (fetched : List (List Post)) (bs : Nat) (p : Post) :
    (p ∈ (reddit_collect_batch t fetched bs).1 →
      "reddit_" ++ p.post_id ∉ t.seen_ids) ∧
    (p ∈ (wikipedia_collect_batch t fetched bs).1 →
      "wiki_" ++ p.post_id ∉ t.seen_ids) ∧
    (p ∈ (osm_collect_batch t fetched bs).1 →
      "osm_" ++ p.post_id ∉ t.seen_ids) := by
  refine ⟨fun hp => ?_, fun hp => ?_, fun hp => ?_⟩
  · exact dedupe_batch_mem_not_seen t.seen_ids "reddit_"
      (gather_results bs [] fetched) p (List.mem_of_mem_take hp)
  · exact dedupe_batch_mem_not_seen t.seen_ids "wiki_"
      (gather_results (bs * 2) [] fetched) p (List.mem_of_mem_take hp)
  · exact dedupe_batch_mem_not_seen t.seen_ids "osm_"
      (gather_results (bs * 2) [] fetched) p (List.mem_of_mem_take hp)

/-- C1 witness: the filtering theorem applied to one fetched post against a
Seen-Set containing a different key. -/
theorem network_collectors_emit_only_unseen_witness :
    sample_post "b" "t" ∈
      (reddit_collect_batch sample_seen_tracker [[sample_post "b" "t"]] 1000).1 ∧
    "reddit_" ++ (sample_post "b" "t").post_id ∉ sample_seen_tracker.seen_ids := by
  have hmem : sample_post "b" "t" ∈
      (reddit_collect_batch sample_seen_tracker [[sample_post "b" "t"]] 1000).1 :=
    List.mem_singleton.mpr rfl
  exact ⟨hmem, (network_collectors_emit_only_unseen sample_seen_tracker
      [[sample_post "b" "t"]] 1000 (sample_post "b" "t")).1 hmem⟩

/-- C1 counterexample: the events generator emits a record whose composite
key `event_evt_5_0` is already present in the Seen-Set at emission time —
`generate_batch` never consults the Seen-Set. -/
theorem events_generator_ignores_seen_set :
    ((events_generate_batch events_seen_tracker (fun _ => sample_event_draw) 1).1.map
        (fun p => "event_" ++ p.post_id)) = ["event_evt_5_0"] ∧
    "event_evt_5_0" ∈ events_seen_tracker.seen_ids := by
  constructor
  · rfl
  · exact List.mem_singleton.mpr rfl

/-! ## C6 — within-batch duplicate resolution -/

theorem merge_dedup_from_congr :
    ∀ (l : List CsvRow) (s1 s2 : List String), (∀ x, x ∈ s1 ↔ x ∈ s2) →
      merge_dedup_from s1 l = merge_dedup_from s2 l := by
  intro l
  induction l with
  | nil => intro s1 s2 h; rfl
  | cons r rest IH =>
      intro s1 s2 h
      by_cases hk : row_key r ∈ s1
      · have hk2 : row_key r ∈ s2 := (h _).mp hk
        have e1 : merge_dedup_from s1 (r :: rest) = merge_dedup_from s1 rest := by
          simp [merge_dedup_from, hk]
        have e2 : merge_dedup_from s2 (r :: rest) = merge_dedup_from s2 rest := by
          simp [merge_dedup_from, hk2]
        rw [e1, e2]
        exact IH s1 s2 h
      · have hk2 : row_key r ∉ s2 := fun hx => hk ((h _).mpr hx)
        have e1 : merge_dedup_from s1 (r :: rest)
            = r :: merge_dedup_from (row_key r :: s1) rest := by
          simp [merge_dedup_from, hk]
        have e2 : merge_dedup_from s2 (r :: rest)
            = r :: merge_dedup_from (row_key r :: s2) rest := by
          simp [merge_dedup_from, hk2]
        rw [e1, e2]
        congr 1
        apply IH
        intro x
        simp only [List.mem_cons]
        rw [h x]

theorem merge_dedup_from_insert :
    ∀ (l : List CsvRow) (seen : List String) (k : String),
      merge_dedup_from (k :: seen) l
        = merge_dedup_from seen (l.filter (fun x => !(row_key x == k))) := by
  intro l
  induction l with
  | nil => intro seen k; rfl
  | cons r rest IH =>
      intro seen k
      by_cases hk : row_key r = k
      · have hmem : row_key r ∈ k :: seen := by simp [hk]
        have e1 : merge_dedup_from (k :: seen) (r :: rest)
            = merge_dedup_from (k :: seen) rest := by
          simp [merge_dedup_from, hmem]
        have e2 : (r :: rest).filter (fun x => !(row_key x == k))
            = rest.filter (fun x => !(row_key x == k)) := by
          simp [List.filter_cons, hk]
        rw [e1, e2, IH]
      · have e2 : (r :: rest).filter (fun x => !(row_key x == k))
            = r :: rest.filter (fun x => !(row_key x == k)) := by
          simp [List.filter_cons, hk]
        by_cases hs : row_key r ∈ seen
        · have hmem : row_key r ∈ k :: seen := List.mem_cons.mpr (Or.inr hs)
          have e1 : merge_dedup_from (k :: seen) (r :: rest)
              = merge_dedup_from (k :: seen) rest := by
            simp [merge_dedup_from, hmem]
          have e3 : merge_dedup_from seen (r :: rest.filter (fun x => !(row_key x == k)))
              = merge_dedup_from seen (rest.filter (fun x => !(row_key x == k))) := by
            simp [merge_dedup_from, hs]
          rw [e1, e2, e3, IH]
        · have hmem : row_key r ∉ k :: seen := by
            simp [List.mem_cons, hk, hs]
          have e1 : merge_dedup_from (k :: seen) (r :: rest)
              = r :: merge_dedup_from (row_key r :: k :: seen) rest := by
            simp [merge_dedup_from, hmem]
          have e3 : merge_dedup_from seen (r :: rest.filter (fun x => !(row_key x == k)))
              = r :: merge_dedup_from (row_key r :: seen)
                  (rest.filter (fun x => !(row_key x == k))) := by
            simp [merge_dedup_from, hs]
          rw [e1, e2, e3]
          congr 1
          have hc : merge_dedup_from (row_key r :: k :: seen) rest
              = merge_dedup_from (k :: row_key r :: seen) rest :=
            merge_dedup_from_congr rest _ _
              (fun x => by simp only [List.mem_cons]; tauto)
          rw [hc, IH (row_key r :: seen) k]

/-- C6 (amended): in the final merge step (`merge_all_csvs`), when two or
more rows share a key only the first in order is kept and the later ones are
dropped; this is the recursion `dedup (r :: rest) = r :: dedup (rest minus
r's key)`.  (As the counterexample shows, the per-batch dedup in
`collect_batch` does not drop within-batch duplicates.) -/
theorem merge_dedup_keeps_first (r : CsvRow) (rest : List CsvRow) :
    merge_dedup ([] : List CsvRow) = [] ∧
    merge_dedup (r :: rest)
      = r :: merge_dedup (rest.filter (fun x => !(row_key x == row_key r))) := by
  constructor
  · rfl
  · show merge_dedup_from [] (r :: rest) = _
    have e1 : merge_dedup_from [] (r :: rest)
        = r :: merge_dedup_from [row_key r] rest := by
      simp [merge_dedup_from]
    rw [e1, merge_dedup_from_insert rest [] (row_key r)]
    rfl

/-- C6 counterexample: `collect_batch` keeps BOTH members of an in-batch
duplicate pair (two distinct records with the same post id): the later
record is not dropped, because the batch loop checks only the Seen-Set as it
was at batch start. -/
theorem batch_dedup_keeps_in_batch_duplicates :
    (reddit_collect_batch empty_tracker [[dup_post_a, dup_post_b]] 1000).1
        = [dup_post_a, dup_post_b] ∧
    dup_post_a.post_id = dup_post_b.post_id ∧ dup_post_a ≠ dup_post_b := by
  refine ⟨rfl, rfl, ?_⟩
  intro h
  exact absurd (congrArg Post.title h) (by decide)

/-! ## C9 — collected count versus emitted records -/

theorem lookup_set_eq :
    ∀ (m : List (String × Nat)) (k : String) (v : Nat),
      lookup_collected (set_collected m k v) k = v := by
  intro m
  induction m with
  | nil => intro k v; simp [set_collected, lookup_collected]
  | cons kv rest IH =>
      intro k v
      obtain ⟨k0, v0⟩ := kv
      by_cases hk : k0 = k
      · subst hk
        simp [set_collected, lookup_collected]
      · simp [set_collected, lookup_collected, hk, IH]

/-- C9: when a collector batch deduplicates to more records than the
requested batch size, the tracker's reddit count is incremented by the FULL
deduplicated count while only `batch_size` records are returned — the
per-source collected count exceeds what is emitted downstream. -/
theorem collect_batch_overshoot (t : Tracker) (fetched : List (List Post))
    (bs : Nat)
    (h : bs < (dedupe_batch t.seen_ids "reddit_" (gather_results bs [] fetched)).1.length) :
    lookup_collected ((reddit_collect_batch t fetched bs).2).collected "reddit"
        = lookup_collected t.collected "reddit"
          + (dedupe_batch t.seen_ids "reddit_" (gather_results bs [] fetched)).1.length ∧
    (reddit_collect_batch t fetched bs).1.length = bs ∧
    bs < (dedupe_batch t.seen_ids "reddit_" (gather_results bs [] fetched)).1.length := by
  refine ⟨?_, ?_, h⟩
  · show lookup_collected (set_collected t.collected "reddit" _) "reddit" = _
    rw [lookup_set_eq]
  · show (List.take bs (dedupe_batch t.seen_ids "reddit_"
        (gather_results bs [] fetched)).1).length = bs
    rw [List.length_take]
    omega

/-- C9 witness: the overshoot theorem applied to a batch of two fresh posts
with requested size 1. -/
theorem collect_batch_overshoot_witness :
    1 < (dedupe_batch empty_tracker.seen_ids "reddit_"
          (gather_results 1 [] [[sample_post "a" "t", sample_post "b" "t"]])).1.length ∧
    (lookup_collected ((reddit_collect_batch empty_tracker
          [[sample_post "a" "t", sample_post "b" "t"]] 1).2).collected "reddit"
        = lookup_collected empty_tracker.collected "reddit"
          + (dedupe_batch empty_tracker.seen_ids "reddit_"
              (gather_results 1 [] [[sample_post "a" "t", sample_post "b" "t"]])).1.length ∧
      (reddit_collect_batch empty_tracker
          [[sample_post "a" "t", sample_post "b" "t"]] 1).1.length = 1 ∧
      1 < (dedupe_batch empty_tracker.seen_ids "reddit_"
            (gather_results 1 [] [[sample_post "a" "t", sample_post "b" "t"]])).1.length) :=
  ⟨by decide, collect_batch_overshoot empty_tracker
      [[sample_post "a" "t", sample_post "b" "t"]] 1 (by decide)⟩

/-! ## C7 — scheduler batch sizing -/

theorem lookup_set_ne :
    ∀ (m : List (String × Nat)) (k : String) (v : Nat) (s : String),
      s ≠ k → lookup_collected (set_collected m k v) s = lookup_collected m s := by
  intro m
  induction m with
  | nil =>
      intro k v s h
      simp [set_collected, lookup_collected, Ne.symm h]
  | cons kv rest IH =>
      intro k v s h
      obtain ⟨k0, v0⟩ := kv
      by_cases hk : k0 = k
      · subst hk
        have e : set_collected ((k0, v0) :: rest) k0 v = (k0, v) :: rest := by
          simp [set_collected]
        rw [e]
        simp [lookup_collected, Ne.symm h]
      · have e : set_collected ((k0, v0) :: rest) k v
            = (k0, v0) :: set_collected rest k v := by
          simp [set_collected, hk]
        rw [e]
        by_cases hs : k0 = s
        · simp [lookup_collected, hs]
        · simp [lookup_collected, hs, IH k v s h]

theorem dispatch_preserves (env : Env) (iter : Nat) (src : String) (n : Nat)
    (t : Tracker) (s : String) (h : s ≠ src) :
    lookup_collected ((dispatch_source env iter src n t).2).collected s
      = lookup_collected t.collected s := by
  unfold dispatch_source
  split_ifs with h1 h2 h3 h4 h5
  · subst h1; exact lookup_set_ne t.collected "reddit" _ s h
  · subst h2; exact lookup_set_ne t.collected "wikipedia" _ s h
  · subst h3; exact lookup_set_ne t.collected "osm" _ s h
  · subst h4; exact lookup_set_ne t.collected "events" _ s h
  · subst h5; exact lookup_set_ne t.collected "news" _ s h
  · rfl

theorem run_sources_requests_keys (env : Env) (iter : Nat) :
    ∀ (srcs : List (String × Nat)) (t : Tracker) (s : String) (n : Nat),
      (s, n) ∈ (run_sources env iter srcs t).requests → s ∈ srcs.map Prod.fst := by
  intro srcs
  induction srcs with
  | nil =>
      intro t s n h
      simp [run_sources] at h
  | cons sq rest IH =>
      obtain ⟨s0, q0⟩ := sq
      intro t s n h
      by_cases hc : lookup_collected t.collected s0 < q0
      · have e : (run_sources env iter ((s0, q0) :: rest) t).requests
            = (s0, min BATCH_SIZE (q0 - lookup_collected t.collected s0))
                :: (run_sources env iter rest
                    ((dispatch_source env iter s0
                      (min BATCH_SIZE (q0 - lookup_collected t.collected s0)) t).2)).requests := by
          simp [run_sources, hc]
        rw [e] at h
        rcases List.mem_cons.mp h with h1 | h1
        · have hs : s = s0 := congrArg Prod.fst h1
          simp [hs]
        · simp only [List.map_cons]
          exact List.mem_cons_of_mem _ (IH _ _ _ h1)
      · have e : (run_sources env iter ((s0, q0) :: rest) t).requests
            = (run_sources env iter rest t).requests := by
          simp [run_sources, hc]
        rw [e] at h
        simp only [List.map_cons]
        exact List.mem_cons_of_mem _ (IH _ _ _ h)

theorem run_sources_requests_char (env : Env) (iter : Nat) :
    ∀ (srcs : List (String × Nat)) (t : Tracker),
      (srcs.map Prod.fst).Nodup →
      ∀ (s : String) (q n : Nat), (s, q) ∈ srcs →
        ((s, n) ∈ (run_sources env iter srcs t).requests ↔
          (lookup_collected t.collected s < q ∧
           n = min BATCH_SIZE (q - lookup_collected t.collected s))) := by
  intro srcs
  induction srcs with
  | nil =>
      intro t _ s q n hmem
      simp at hmem
  | cons sq rest IH =>
      obtain ⟨s0, q0⟩ := sq
      intro t hnd s q n hmem
      rw [List.map_cons, List.nodup_cons] at hnd
      obtain ⟨hs0, hnd'⟩ := hnd
      rcases List.mem_cons.mp hmem with heq | hrest
      · injection heq with hs hq
        subst hs
        subst hq
        by_cases hc : lookup_collected t.collected s < q
        · have e : (run_sources env iter ((s, q) :: rest) t).requests
              = (s, min BATCH_SIZE (q - lookup_collected t.collected s))
                  :: (run_sources env iter rest
                      ((dispatch_source env iter s
                        (min BATCH_SIZE (q - lookup_collected t.collected s)) t).2)).requests := by
            simp [run_sources, hc]
          rw [e]
          constructor
          · intro hin
            rcases List.mem_cons.mp hin with h1 | h1
            · exact ⟨hc, congrArg Prod.snd h1⟩
            · exact absurd (run_sources_requests_keys env iter rest _ _ _ h1) hs0
          · rintro ⟨-, hn⟩
            subst hn
            exact List.mem_cons_self _ _
        · have e : (run_sources env iter ((s, q) :: rest) t).requests
              = (run_sources env iter rest t).requests := by
            simp [run_sources, hc]
          rw [e]
          constructor
          · intro hin
            exact absurd (run_sources_requests_keys env iter rest _ _ _ hin) hs0
          · rintro ⟨hc', -⟩
            exact absurd hc' hc
      · have hs_ne : s ≠ s0 := by
          intro hss
          subst hss
          exact hs0 (List.mem_map.mpr ⟨(s, q), hrest, rfl⟩)
        by_cases hc : lookup_collected t.collected s0 < q0
        · have e : (run_sources env iter ((s0, q0) :: rest) t).requests
              = (s0, min BATCH_SIZE (q0 - lookup_collected t.collected s0))
                  :: (run_sources env iter rest
                      ((dispatch_source env iter s0
                        (min BATCH_SIZE (q0 - lookup_collected t.collected s0)) t).2)).requests := by
            simp [run_sources, hc]
          rw [e]
          have hpres := dispatch_preserves env iter s0
            (min BATCH_SIZE (q0 - lookup_collected t.collected s0)) t s hs_ne
          have hiff := IH ((dispatch_source env iter s0
            (min BATCH_SIZE (q0 - lookup_collected t.collected s0)) t).2) hnd' s q n hrest
          rw [hpres] at hiff
          constructor
          · intro hin
            rcases List.mem_cons.mp hin with h1 | h1
            · exact absurd (congrArg Prod.fst h1) hs_ne
            · exact hiff.mp h1
          · intro hx
            exact List.mem_cons_of_mem _ (hiff.mpr hx)
        · have e : (run_sources env iter ((s0, q0) :: rest) t).requests
              = (run_sources env iter rest t).requests := by
            simp [run_sources, hc]
          rw [e]
          exact IH t hnd' s q n hrest

/-- C7: on every scheduler iteration, a source-category is requested exactly
when its collected count is strictly below its quota, and then with batch
size exactly `min(BATCH_SIZE, quota - collected)`; sources at quota are not
requested at all (no request of any size for them is in the iteration's
request log). -/
theorem scheduler_requests_min_batch (env : Env) (iter : Nat) (t : Tracker)
    (s : String) (q n : Nat) (hmem : (s, q) ∈ SOURCE_DISTRIBUTION) :
    (s, n) ∈ (run_sources env iter SOURCE_DISTRIBUTION t).requests ↔
      (lookup_collected t.collected s < q ∧
       n = min BATCH_SIZE (q - lookup_collected t.collected s)) :=
  run_sources_requests_char env iter SOURCE_DISTRIBUTION t (by decide) s q n hmem

/-- C7 witness: the sizing theorem applied to the reddit category on a fresh
tracker. -/
theorem scheduler_requests_min_batch_witness :
    ("reddit", (7000 : Nat)) ∈ SOURCE_DISTRIBUTION ∧
    (("reddit", (1000 : Nat)) ∈
        (run_sources quiet_env 0 SOURCE_DISTRIBUTION empty_tracker).requests ↔
      (lookup_collected empty_tracker.collected "reddit" < 7000 ∧
       1000 = min BATCH_SIZE (7000 - lookup_collected empty_tracker.collected "reddit"))) :=
  ⟨by decide,
    scheduler_requests_min_batch quiet_env 0 empty_tracker "reddit" 7000 1000 (by decide)⟩

/-! ## C4 — no zero-progress termination guard in collect_to_target -/

/-- C4 (code bug): started from a checkpoint on which both generator quotas
are met, with every network source returning no records, every full
scheduler iteration produces zero new records while the total (6000) stays
below TARGET_POSTS — and the loop never exits: after ANY number of
iterations it is still running.  The claimed "terminate early on a zero-new-
record iteration" guard does not exist in collect_to_target. -/
theorem collect_to_target_spins_on_exhaustion :
    ∀ (fuel iter : Nat),
      collect_to_target quiet_env fuel iter generators_done_tracker = none := by
  have ht0 : ¬ TARGET_POSTS ≤ get_total generators_done_tracker := by decide
  have ht1 : ¬ TARGET_POSTS ≤ get_total generators_done_tracker' := by decide
  have haux : ∀ fuel iter,
      collect_to_target quiet_env fuel iter generators_done_tracker' = none := by
    intro fuel
    induction fuel with
    | zero =>
        intro iter
        simp [collect_to_target, ht1]
    | succ m IH =>
        intro iter
        have e : (run_sources quiet_env iter SOURCE_DISTRIBUTION
            generators_done_tracker').tracker = generators_done_tracker' := rfl
        simp only [collect_to_target]
        rw [if_neg ht1, e]
        exact IH (iter + 1)
  intro fuel iter
  cases fuel with
  | zero => simp [collect_to_target, ht0]
  | succ m =>
      have e : (run_sources quiet_env iter SOURCE_DISTRIBUTION
          generators_done_tracker).tracker = generators_done_tracker' := rfl
      simp only [collect_to_target]
      rw [if_neg ht0, e]
      exact haux m (iter + 1)

/-! ## Instance evaluations of the universally quantified theorems -/

/-- C2 witness: the in-place-write theorem instantiated at the concrete
checkpoint file, tracker and file system of the counterexample. -/
theorem save_checkpoint_truncates_in_place_witness :
    (fs_after ((save_checkpoint_ops ck_path one_batch_tracker "t1").take 1) sample_fs) ck_path
        = some "" ∧
    (fs_after (save_checkpoint_ops ck_path one_batch_tracker "t1") sample_fs) ck_path
        = some (serialize_checkpoint (save_checkpoint one_batch_tracker "t1")) ∧
    ∀ a b, FsOp.rename_file a b ∉ save_checkpoint_ops ck_path one_batch_tracker "t1" :=
  save_checkpoint_truncates_in_place ck_path one_batch_tracker "t1" sample_fs

/-- C8 witness: the severity-range theorem instantiated at a concrete
warning detail document. -/
theorem determine_severity_never_four_witness :
    determine_severity sample_warn_details ≠ 4 ∧
      (determine_severity sample_warn_details = 1 ∨
       determine_severity sample_warn_details = 2 ∨
       determine_severity sample_warn_details = 3 ∨
       determine_severity sample_warn_details = 5) :=
  determine_severity_never_four sample_warn_details
